import Mathlib

/-!
Verification development for a LangGraph-based RAG chatbot.

The definitions below are a shallow embedding of the repository's Python
sources: the routing / retrieval / generation workflow of
`langgraph_agent.py` (with the OpenAI client of `openai_client.py` and the
vector-store adapter of `embeddings.py` modelled as external outcomes), and
the evaluation pipeline of `evaluator.py` (with the model-graded deepeval
judges modelled as external functions of the test case, and the lexical
BLEU / ROUGE scorers embedded from their library algorithms in exact
rational / real arithmetic).
-/

/-! ### Python string primitives -/

/-- Python `str.startswith` on character lists: `n` is a prefix of `h`. -/
def listStarts : List Char → List Char → Bool
  | [], _ => true
  | _ :: _, [] => false
  | a :: n, b :: h => a = b && listStarts n h

/-- Python's `n in h` on character lists: `n` occurs contiguously in `h`. -/
def listContains (n : List Char) : List Char → Bool
  | [] => n.isEmpty
  | b :: h => listStarts n (b :: h) || listContains n h

/-- Python's substring test `needle in haystack`. -/
def strContains (needle haystack : String) : Bool :=
  listContains needle.data haystack.data

/-- Python `str.lower()` (per-character ASCII lowering). -/
def lowerStr (s : String) : String :=
  String.mk (s.data.map Char.toLower)

/-- Python `str.split()` with no argument: split on whitespace runs,
dropping empty fields.  `acc` holds the current word, reversed. -/
def pySplitAux : List Char → List Char → List String
  | [], acc => if acc = [] then [] else [String.mk acc.reverse]
  | c :: cs, acc =>
    if c.isWhitespace then
      if acc = [] then pySplitAux cs []
      else String.mk acc.reverse :: pySplitAux cs []
    else pySplitAux cs (c :: acc)

/-- Python `s.split()`. -/
def pySplit (s : String) : List String :=
  pySplitAux s.data []

/-- Python truthiness of an optional string: `None` and `""` are falsy. -/
def isTruthy : Option String → Bool
  | none => false
  | some s => if s = "" then false else true

/-- Python `x or y` for an optional string `x`: `y` when `x` is falsy. -/
def pyOrStr (o : Option String) (dflt : String) : String :=
  match o with
  | none => dflt
  | some s => if s = "" then dflt else s

/-! ### Router (`langgraph_agent.py`, `_router_node` / `openai_client.py`,
`generate_structured_response`)

`generate_structured_response` returns the judge's free-form text, or
`None` when the underlying call raises; `_router_node` then defaults the
route to `"direct"` and switches to `"retrieval"` only when the output is a
string whose lowering contains `"retrieval"`. -/

/-- The route computed by `_router_node` from the classifier output. -/
def routeOf : Option String → String
  | none => "direct"
  | some s => if strContains "retrieval" (lowerStr s) then "retrieval" else "direct"

/-! ### Substring semantics -/

theorem listStarts_iff (n : List Char) :
    ∀ h : List Char, listStarts n h = true ↔ ∃ t, h = n ++ t := by
  induction n with
  | nil =>
    intro h
    simp [listStarts]
  | cons a n ih =>
    intro h
    cases h with
    | nil =>
      simp [listStarts]
    | cons b h =>
      simp only [listStarts, Bool.and_eq_true, decide_eq_true_eq, ih]
      constructor
      · rintro ⟨rfl, t, rfl⟩
        exact ⟨t, rfl⟩
      · rintro ⟨t, ht⟩
        rw [List.cons_append] at ht
        injection ht with h1 h2
        exact ⟨h1.symm, t, h2⟩

theorem listContains_iff (n : List Char) :
    ∀ h : List Char, listContains n h = true ↔ ∃ p t, h = p ++ n ++ t := by
  intro h
  induction h with
  | nil =>
    simp only [listContains, List.isEmpty_iff]
    constructor
    · rintro rfl
      exact ⟨[], [], rfl⟩
    · rintro ⟨p, t, ht⟩
      rcases p with _ | ⟨c, p⟩ <;> rcases n with _ | ⟨d, n⟩ <;> simp_all
    | cons b h ih =>
      simp only [listContains, Bool.or_eq_true, listStarts_iff, ih]
      constructor
      · rintro (⟨t, ht⟩ | ⟨p, t, rfl⟩)
        · exact ⟨[], t, by simpa using ht⟩
        · exact ⟨b :: p, t, rfl⟩
      · rintro ⟨p, t, ht⟩
        rcases p with _ | ⟨c, p⟩
        · exact Or.inl ⟨t, by simpa using ht⟩
        · rw [List.cons_append, List.cons_append] at ht
          injection ht with h1 h2
          exact Or.inr ⟨p, t, by simpa using h2⟩

theorem strContains_iff (needle haystack : String) :
    strContains needle haystack = true ↔
      ∃ p t, haystack.data = p ++ needle.data ++ t := by
  exact listContains_iff needle.data haystack.data

/-- C1: the route decision is `"retrieval"` exactly when the classifier
produced a string whose lowering contains the substring `"retrieval"`;
every other classifier outcome — any other string, or a failure (`none`) —
yields route `"direct"`. -/
theorem route_iff_contains_retrieval (d : Option String) :
    (routeOf d = "retrieval" ↔
      ∃ s p t, d = some s ∧ (lowerStr s).data = p ++ "retrieval".data ++ t) ∧
    (routeOf d = "direct" ↔
      ¬ ∃ s p t, d = some s ∧ (lowerStr s).data = p ++ "retrieval".data ++ t) := by
  cases d with
  | none =>
    constructor
    · simp [routeOf]
    · simp [routeOf]
  | some s =>
    by_cases hc : strContains "retrieval" (lowerStr s) = true
    · have hr : routeOf (some s) = "retrieval" := by simp [routeOf, hc]
      obtain ⟨p, t, ht⟩ := (strContains_iff "retrieval" (lowerStr s)).mp hc
      rw [hr]
      constructor
      · exact ⟨fun _ => ⟨s, p, t, rfl, ht⟩, fun _ => rfl⟩
      · constructor
        · intro h
          exact absurd h (by decide)
        · intro h
          exact absurd ⟨s, p, t, rfl, ht⟩ h
    · have hr : routeOf (some s) = "direct" := by simp [routeOf, hc]
      have hnex : ¬ ∃ s' p t, (some s = some s') ∧
          (lowerStr s').data = p ++ "retrieval".data ++ t := by
        rintro ⟨s', p, t, hs, ht⟩
        injection hs with hs
        subst hs
        exact hc ((strContains_iff "retrieval" (lowerStr s)).mpr ⟨p, t, ht⟩)
      rw [hr]
      constructor
      · constructor
        · intro h
          exact absurd h (by decide)
        · intro h
          exact absurd h hnex
      · exact ⟨fun _ => hnex, fun _ => rfl⟩

/-! ### Documents and the vector-store adapter (`embeddings.py`)

A retrieved document travels through the workflow as a Python dict.  The
dicts built by `similarity_search` carry the keys `content`, `metadata`
and `score`; the telemetry logger later reads the key `page_content` with
`dict.get` and a default.  `DocDict` models such a dict with one optional
field per key that appears anywhere in the sources. -/

/-- Metadata of a document, an opaque string-keyed dict. -/
def Metadata : Type := List (String × String)

instance : DecidableEq Metadata := by
  unfold Metadata
  infer_instance

/-- A document as produced by the underlying Chroma store. -/
structure ChromaDoc where
  page_content : String
  metadata : Metadata
deriving DecidableEq

/-- A document dict as passed around the workflow; each field models the
presence or absence of the corresponding dict key. -/
structure DocDict where
  content : Option String := none
  page_content : Option String := none
  metadata : Option Metadata := none
  score : Option ℚ := none
deriving DecidableEq

/-- `ChromaVectorStore.similarity_search`: formats the scored documents
returned by the underlying store, storing each passage's text under the
key `content` (not `page_content`). -/
def similarity_search (results_with_scores : List (ChromaDoc × ℚ)) : List DocDict :=
  results_with_scores.map fun r =>
    { content := some r.1.page_content
      metadata := some r.1.metadata
      score := some r.2 }

/-! ### Workflow state and environment (`langgraph_agent.py`) -/

/-- `AgentState`: the LangGraph state dict. -/
structure AgentState where
  messages : List String
  query : String
  retrieved_documents : List DocDict
  context : String
  response : String
  session_id : String
  transaction_id : String
  route_decision : String
deriving DecidableEq

/-- Outcomes of the external collaborators during one workflow invocation:
the routing classifier's output (`none` when the call raises), the scored
documents returned by the vector store, and the generator's output
(`none` when the call raises).  Exactly one `generate_response` call
happens per invocation, in whichever generation node runs. -/
structure Env where
  classifierOutcome : Option String
  retrieverResults : List (ChromaDoc × ℚ)
  generatorOutcome : Option String

/-- The fixed apology returned by `OpenAIClient.generate_response` when the
underlying model call raises. -/
def apologyMessage : String :=
  "I apologize, but I'm experiencing technical difficulties. Please try again later."

/-- `OpenAIClient.generate_response`: the model's content on success, the
apology string on any exception. -/
def generate_response (outcome : Option String) : String :=
  outcome.getD apologyMessage

/-- `_router_node`: sets `route_decision` from the classifier output. -/
def routerNode (env : Env) (s : AgentState) : AgentState :=
  { s with route_decision := routeOf env.classifierOutcome }

/-- The context-assembly loop of `_retrieval_node`:
`"Document 1: <content>\n\nDocument 2: <content>..."`, 1-indexed, joined
with blank lines (`"\n\n".join`). -/
def formatContext (contents : List String) : String :=
  String.intercalate "\n\n"
    (contents.enum.map fun p => "Document " ++ toString (p.1 + 1) ++ ": " ++ p.2)

/-- `_retrieval_node`: retrieves the documents and assembles the context. -/
def retrievalNode (env : Env) (s : AgentState) : AgentState :=
  let documents := similarity_search env.retrieverResults
  let context := formatContext (documents.map fun d => d.content.getD "")
  { s with retrieved_documents := documents, context := context }

/-! ### Telemetry (`_log_telemetry`) -/

/-- One formatted document inside a telemetry record.  `_log_telemetry`
reads `doc.get("page_content", "")`, `doc.get("score", 0.0)` and
`doc.get("metadata", {})`. -/
structure TelemetryDoc where
  content : String
  score : ℚ
  metadata : Metadata
deriving DecidableEq

/-- The per-document formatting performed by `_log_telemetry`. -/
def docToTelemetry (d : DocDict) : TelemetryDoc :=
  { content := d.page_content.getD ""
    score := d.score.getD 0
    metadata := d.metadata.getD [] }

/-- The telemetry record handed to the result sink.  A failure of the sink
itself is caught and swallowed, so the record's content is what matters. -/
structure TelemetryRecord where
  transaction_id : String
  session_id : String
  query : String
  retrieved_documents : List TelemetryDoc
  complete_prompt : String
  response : String
deriving DecidableEq

/-- `_log_telemetry`: the record built from the current state. -/
def logTelemetry (s : AgentState) : TelemetryRecord :=
  { transaction_id := s.transaction_id
    session_id := s.session_id
    query := s.query
    retrieved_documents := s.retrieved_documents.map docToTelemetry
    complete_prompt := "Query: " ++ s.query ++ "\nContext: " ++ s.context
    response := s.response }

/-- `_generation_node`: sets the response from the generator, then logs
telemetry. -/
def generationNode (env : Env) (s : AgentState) : AgentState × TelemetryRecord :=
  let s1 := { s with response := generate_response env.generatorOutcome }
  (s1, logTelemetry s1)

/-- `_direct_response_node`: sets the response, clears the documents and
context, then logs telemetry. -/
def directResponseNode (env : Env) (s : AgentState) : AgentState × TelemetryRecord :=
  let s1 := { s with response := generate_response env.generatorOutcome }
  let s2 := { s1 with retrieved_documents := ([] : List DocDict), context := "" }
  (s2, logTelemetry s2)

/-- The compiled graph: START → router → (conditional on
`_route_decision`) → retrieval → generation → END, or → direct_response →
END. -/
def runWorkflow (env : Env) (s0 : AgentState) : AgentState × TelemetryRecord :=
  let s1 := routerNode env s0
  if s1.route_decision = "retrieval" then generationNode env (retrievalNode env s1)
  else directResponseNode env s1

/-- `if not session_id: session_id = str(uuid.uuid4())` — the fresh id is
generated externally and passed in. -/
def resolveSessionId (session_id : Option String) (freshSid : String) : String :=
  if isTruthy session_id then session_id.getD "" else freshSid

/-- The initial state built by `process_query`. -/
def initialState (query sid tid : String) : AgentState :=
  { messages := []
    query := query
    retrieved_documents := []
    context := ""
    response := ""
    session_id := sid
    transaction_id := tid
    route_decision := "" }

/-- The dict returned by `process_query`. -/
structure ProcessResult where
  response : String
  transaction_id : String
  session_id : String
  retrieved_documents : List DocDict
  route_taken : String
deriving DecidableEq

/-- `process_query`: builds the initial state, runs the graph, and returns
the result dict; the telemetry record emitted by the graph is returned
alongside it. -/
def process_query (env : Env) (query : String) (session_id : Option String)
    (freshTid freshSid : String) : ProcessResult × TelemetryRecord :=
  let sid := resolveSessionId session_id freshSid
  let result := runWorkflow env (initialState query sid freshTid)
  ({ response := result.1.response
     transaction_id := freshTid
     session_id := sid
     retrieved_documents := result.1.retrieved_documents
     route_taken := result.1.route_decision }, result.2)

/-! ### Context assembly (C5) -/

/-- One line of the assembled context, as the spec words it. -/
def specDocLine (i : ℕ) (c : String) : String :=
  "Document " ++ toString i ++ ": " ++ c

/-- The lines of the assembled context per the spec: 1-indexed, in
retriever order. -/
def specContextParts : ℕ → List String → List String
  | _, [] => []
  | i, c :: cs => specDocLine i c :: specContextParts (i + 1) cs

/-- The assembled context as described by the spec: the 1-indexed document
lines joined by a blank line; empty list ↦ empty string. -/
def specAssembledContext (cs : List String) : String :=
  String.intercalate "\n\n" (specContextParts 1 cs)

theorem enumFrom_map_docLine (cs : List String) :
    ∀ n : ℕ, ((List.enumFrom n cs).map fun p => "Document " ++ toString (p.1 + 1) ++ ": " ++ p.2)
      = specContextParts (n + 1) cs := by
  induction cs with
  | nil =>
    intro n
    rfl
  | cons c cs ih =>
    intro n
    simp only [List.enumFrom, List.map_cons, specContextParts, specDocLine, ih]

/-- C5: the context assembled from an ordered list of passage contents is
exactly the spec's `"Document 1: <c1>\n\nDocument 2: <c2>..."` — 1-indexed,
in retriever order, joined with blank lines — and the empty list yields the
empty string. -/
theorem formatContext_spec (cs : List String) :
    formatContext cs = specAssembledContext cs ∧ formatContext [] = "" := by
  constructor
  · unfold formatContext specAssembledContext List.enum
    rw [enumFrom_map_docLine]
  · rfl

/-! ### Workflow invariants (C4, C6, C9) -/

/-- C4: whenever `process_query` reports route `"direct"`, the returned
document list is empty and the terminal state's context is the empty
string. -/
theorem direct_route_no_documents (env : Env) (query : String)
    (session_id : Option String) (freshTid freshSid : String)
    (h : (process_query env query session_id freshTid freshSid).1.route_taken = "direct") :
    (process_query env query session_id freshTid freshSid).1.retrieved_documents = [] ∧
    (runWorkflow env (initialState query (resolveSessionId session_id freshSid) freshTid)).1.context
      = "" := by
  simp only [process_query, runWorkflow] at h ⊢
  by_cases hr : (routerNode env (initialState query (resolveSessionId session_id freshSid)
      freshTid)).route_decision = "retrieval"
  · rw [if_pos hr] at h
    simp only [generationNode, retrievalNode] at h
    rw [hr] at h
    exact absurd h (by decide)
  · rw [if_neg hr]
    rw [if_neg hr] at h
    simp [directResponseNode]

theorem direct_route_no_documents_witness :
    (process_query ⟨some "direct", [], some "hello"⟩ "Hi" none "t1" "s1").1.retrieved_documents
      = [] ∧
    (runWorkflow ⟨some "direct", [], some "hello"⟩
      (initialState "Hi" (resolveSessionId none "s1") "t1")).1.context = "" :=
  direct_route_no_documents ⟨some "direct", [], some "hello"⟩ "Hi" none "t1" "s1" (by decide)

/-- C6: when the generator call raises (outcome `none`), `process_query`
still returns — whichever generation node ran — with the fixed apology
string as the response, and the telemetry record is still emitted, carrying
that same response.  (`process_query` is a total function of the external
outcomes, so no internal exception can propagate.) -/
theorem generator_failure_apology (env : Env) (query : String)
    (session_id : Option String) (freshTid freshSid : String)
    (h : env.generatorOutcome = none) :
    (process_query env query session_id freshTid freshSid).1.response = apologyMessage ∧
    (process_query env query session_id freshTid freshSid).2.response = apologyMessage := by
  simp only [process_query, runWorkflow]
  by_cases hr : (routerNode env (initialState query (resolveSessionId session_id freshSid)
      freshTid)).route_decision = "retrieval"
  · rw [if_pos hr]
    simp [generationNode, logTelemetry, generate_response, h]
  · rw [if_neg hr]
    simp [directResponseNode, logTelemetry, generate_response, h]

theorem generator_failure_apology_witness :
    (process_query ⟨some "retrieval", [], none⟩ "Q" none "t1" "s1").1.response = apologyMessage ∧
    (process_query ⟨some "retrieval", [], none⟩ "Q" none "t1" "s1").2.response = apologyMessage :=
  generator_failure_apology ⟨some "retrieval", [], none⟩ "Q" none "t1" "s1" rfl

theorem all_blank_replicate (n : ℕ) :
    (List.replicate n "").all (fun c : String => c = "") = true := by
  simp [List.all_eq_true, List.mem_replicate]

theorem telemetry_similarity_blank (rs : List (ChromaDoc × ℚ)) :
    ((similarity_search rs).map docToTelemetry).map TelemetryDoc.content
      = List.replicate rs.length "" := by
  induction rs with
  | nil => rfl
  | cons r rs ih =>
    have h2 := ih
    simp only [similarity_search, List.map_cons, List.length_cons, List.replicate_succ,
      docToTelemetry, Option.getD_none] at h2 ⊢
    rw [h2]

/-- C9: the `content` field of every document stored in the emitted
telemetry record is the empty string — on every route, including the
retrieval route with non-empty passages — because `_log_telemetry` reads
the key `page_content` while `similarity_search` stores the passage text
under the key `content`. -/
theorem telemetry_documents_content_empty (env : Env) (query : String)
    (session_id : Option String) (freshTid freshSid : String) :
    (((process_query env query session_id freshTid freshSid).2.retrieved_documents).map
        TelemetryDoc.content).all (fun c => c = "") = true ∧
    ∀ rs : List (ChromaDoc × ℚ),
      ((similarity_search rs).map docToTelemetry).map TelemetryDoc.content
        = List.replicate rs.length "" := by
  refine ⟨?_, telemetry_similarity_blank⟩
  simp only [process_query, runWorkflow]
  by_cases hr : (routerNode env (initialState query (resolveSessionId session_id freshSid)
      freshTid)).route_decision = "retrieval"
  · rw [if_pos hr]
    simp only [generationNode, retrievalNode, logTelemetry]
    rw [telemetry_similarity_blank]
    exact all_blank_replicate _
  · rw [if_neg hr]
    simp [directResponseNode, logTelemetry]

/-! ### Lexical scorers (`evaluator.py`)

`calculate_bleu_score` lower-cases and whitespace-splits both strings and
delegates to nltk's `sentence_bleu` with one reference and the default
uniform 4-gram weights and no smoothing; `calculate_rouge_score` delegates
to `rouge_scorer.RougeScorer(['rouge1','rouge2','rougeL'],
use_stemmer=True)` and keeps only the ROUGE-L F1 measure.  Both library
algorithms are embedded below in exact arithmetic (rationals, and reals
for BLEU's exp/log geometric mean); the Porter stemmer used by the ROUGE
tokenizer is an external pure function and is taken as a parameter. -/

/-- The padded n-grams of a token list (`nltk.util.ngrams` /
`rouge_score._create_ngrams`): all contiguous windows of length `n`. -/
def ngramList (n : ℕ) (ws : List String) : List (List String) :=
  if ws.length < n then []
  else (List.range (ws.length - n + 1)).map fun i => (ws.drop i).take n

/-- The clipped overlap count between two n-gram bags: for each distinct
n-gram of `hypGrams`, its count clipped by its count in `refGrams`,
summed.  (Also the `Counter` intersection size used by ROUGE-1/2.) -/
def clippedCount (refGrams hypGrams : List (List String)) : ℕ :=
  (hypGrams.dedup.map fun g => min (hypGrams.count g) (refGrams.count g)).sum

/-- nltk `modified_precision` for a single reference: clipped n-gram count
over the hypothesis n-gram count (denominator floored at 1). -/
def modifiedPrecision (ref hyp : List String) (n : ℕ) : ℚ :=
  (clippedCount (ngramList n ref) (ngramList n hyp) : ℚ)
    / (max 1 (ngramList n hyp).length : ℕ)

/-- nltk `brevity_penalty` for a single reference: 1 when the hypothesis
is longer, 0 when it is empty, `exp (1 - r/c)` otherwise. -/
noncomputable def brevityPenalty (refLen hypLen : ℕ) : ℝ :=
  if refLen < hypLen then 1
  else if hypLen = 0 then 0
  else Real.exp (1 - (refLen : ℝ) / (hypLen : ℝ))

/-- `sys.float_info.min`, the positive stand-in that nltk's no-smoothing
`method0` substitutes for a zero higher-order precision. -/
def floatMin : ℚ := 1 / 2 ^ 1022

/-- `method0` smoothing: a zero precision becomes `floatMin`. -/
def smooth0 (p : ℚ) : ℚ :=
  if p = 0 then floatMin else p

/-- nltk `sentence_bleu([ref], hyp)` with the default uniform weights
`(1/4, 1/4, 1/4, 1/4)`: 0 when there is no unigram overlap, otherwise the
brevity penalty times `exp (Σ (1/4)·log pₙ)` over the four smoothed
modified precisions. -/
noncomputable def sentenceBleu (ref hyp : List String) : ℝ :=
  if clippedCount (ngramList 1 ref) (ngramList 1 hyp) = 0 then 0
  else
    brevityPenalty ref.length hyp.length *
      Real.exp (((1 : ℝ) / 4) * Real.log ((smooth0 (modifiedPrecision ref hyp 1) : ℚ) : ℝ)
        + ((1 : ℝ) / 4) * Real.log ((smooth0 (modifiedPrecision ref hyp 2) : ℚ) : ℝ)
        + ((1 : ℝ) / 4) * Real.log ((smooth0 (modifiedPrecision ref hyp 3) : ℚ) : ℝ)
        + ((1 : ℝ) / 4) * Real.log ((smooth0 (modifiedPrecision ref hyp 4) : ℚ) : ℝ))

/-- `ChatbotEvaluator.calculate_bleu_score`: lower-case, whitespace-split,
then `sentence_bleu([reference_tokens], candidate_tokens)`. -/
noncomputable def calculate_bleu_score (reference candidate : String) : ℝ :=
  sentenceBleu (pySplit (lowerStr reference)) (pySplit (lowerStr candidate))

/-- ASCII lower-case letters and digits, the character class `[a-z0-9]`
of the ROUGE tokenizer. -/
def isAlnumLower (c : Char) : Bool :=
  (('a' ≤ c) && (c ≤ 'z')) || (('0' ≤ c) && (c ≤ '9'))

/-- The ROUGE tokenizer's cleaning pass: lower-case, then replace every
character outside `[a-z0-9]` with a space. -/
def rougeClean (text : String) : String :=
  String.mk ((lowerStr text).data.map fun c => if isAlnumLower c then c else ' ')

/-- The ROUGE tokenizer: clean, split on whitespace, stem every token
longer than three characters, and keep only tokens matching
`^[a-z0-9]+$`. -/
def rougeTokenize (stem : String → String) (text : String) : List String :=
  (((pySplit (rougeClean text)).map fun w => if 3 < w.length then stem w else w).filter
    fun w => !(w = "") && w.data.all isAlnumLower)

/-- Longest-common-subsequence length (`rouge_scorer._lcs_table`). -/
def lcsLen : List String → List String → ℕ
  | [], _ => 0
  | _ :: _, [] => 0
  | a :: as, b :: bs =>
    if a = b then 1 + lcsLen as bs
    else max (lcsLen (a :: as) bs) (lcsLen as (b :: bs))
termination_by l1 l2 => l1.length + l2.length
decreasing_by all_goals simp_arith

/-- One ROUGE score triple (`rouge_score.scoring.Score`). -/
structure RougeScore where
  precision : ℚ
  recall' : ℚ
  fmeasure : ℚ
deriving DecidableEq

/-- `rouge_score.scoring.fmeasure`: the harmonic mean, 0 when both inputs
are 0. -/
def fmeasureOf (p r : ℚ) : ℚ :=
  if 0 < p + r then 2 * p * r / (p + r) else 0

/-- `rouge_scorer._score_ngrams` for ROUGE-N: counter-intersection overlap
over the two bag sizes (floored at 1). -/
def scoreNgrams (n : ℕ) (target prediction : List String) : RougeScore :=
  let tg := ngramList n target
  let pg := ngramList n prediction
  let inter := clippedCount tg pg
  let p : ℚ := (inter : ℚ) / (max pg.length 1 : ℕ)
  let r : ℚ := (inter : ℚ) / (max tg.length 1 : ℕ)
  ⟨p, r, fmeasureOf p r⟩

/-- `rouge_scorer._score_lcs` for ROUGE-L: LCS length over the two token
counts; all zero when either side is empty. -/
def scoreLcs (target prediction : List String) : RougeScore :=
  if target = [] ∨ prediction = [] then ⟨0, 0, 0⟩
  else
    let l := lcsLen target prediction
    let p : ℚ := (l : ℚ) / (prediction.length : ℚ)
    let r : ℚ := (l : ℚ) / (target.length : ℚ)
    ⟨p, r, fmeasureOf p r⟩

/-- The score dict produced by `RougeScorer(['rouge1','rouge2','rougeL'],
use_stemmer=True).score(target, prediction)`: all three variants are
computed. -/
structure RougeScores where
  rouge1 : RougeScore
  rouge2 : RougeScore
  rougeL : RougeScore
deriving DecidableEq

/-- `RougeScorer.score(target, prediction)`. -/
def rougeScorerScore (stem : String → String) (target prediction : String) : RougeScores :=
  let t := rougeTokenize stem target
  let p := rougeTokenize stem prediction
  ⟨scoreNgrams 1 t p, scoreNgrams 2 t p, scoreLcs t p⟩

/-- `ChatbotEvaluator.calculate_rouge_score`: of the three computed
variants, only the ROUGE-L F1 measure is returned. -/
def calculate_rouge_score (stem : String → String) (reference candidate : String) : ℚ :=
  (rougeScorerScore stem reference candidate).rougeL.fmeasure

/-! ### The evaluation pipeline (`evaluate_response`) -/

/-- `deepeval.test_case.LLMTestCase` as constructed by
`evaluate_response`: the expected output falls back to the response when
the supplied one is falsy, and the retrieval context is the list of
`content` values of the context dicts. -/
structure LLMTestCase where
  input : String
  actual_output : String
  expected_output : String
  retrieval_context : List String
deriving DecidableEq

/-- The test case built at the top of `evaluate_response`. -/
def mkTestCase (query response : String) (retrieved_contexts : List DocDict)
    (expected_output : Option String) : LLMTestCase :=
  { input := query
    actual_output := response
    expected_output := pyOrStr expected_output response
    retrieval_context := retrieved_contexts.map fun d => d.content.getD "" }

/-- The six model-graded deepeval metrics, modelled as external judgments
of the test case: `none` when `measure` raises, `some v` when it succeeds
with score `v`. -/
structure Judges where
  answer_relevancy : LLMTestCase → Option ℚ
  faithfulness : LLMTestCase → Option ℚ
  context_precision : LLMTestCase → Option ℚ
  context_recall : LLMTestCase → Option ℚ
  context_relevancy : LLMTestCase → Option ℚ
  hallucination : LLMTestCase → Option ℚ

/-- The fixed-shape results dict of `evaluate_response`: exactly these
eight score keys, no others. -/
structure EvalResults where
  answer_relevancy : ℚ
  faithfulness : ℚ
  context_precision : ℚ
  context_recall : ℚ
  context_relevancy : ℚ
  hallucination_score : ℚ
  bleu_score : ℝ
  rouge_score : ℚ

/-- One try/except scorer block: on success (`some v`) the block writes
its key via `set`; on failure the results dict is left untouched. -/
def tryUpdate (o : Option ℚ) (r : EvalResults) (set : EvalResults → ℚ → EvalResults) :
    EvalResults :=
  match o with
  | some v => set r v
  | none => r

/-- `ChatbotEvaluator.evaluate_response`, sequential as in the source:
initialize all eight scores to 0.0; run each guarded scorer inside its own
try/except, overwriting its single key on success and leaving it untouched
on failure; the four context metrics are guarded by
`if retrieved_contexts:`; the two lexical scores are guarded by
`if expected_output:`.  The second component records, in program order,
which of the six model-graded `measure` calls were invoked. -/
noncomputable def evaluate_response (j : Judges) (stem : String → String)
    (query response : String) (retrieved_contexts : List DocDict)
    (expected_output : Option String) : EvalResults × List String :=
  let test_case := mkTestCase query response retrieved_contexts expected_output
  let r0 : EvalResults := ⟨0, 0, 0, 0, 0, 0, 0, 0⟩
  let r1 := tryUpdate (j.answer_relevancy test_case) r0
    fun r v => { r with answer_relevancy := v }
  let i1 := ["answer_relevancy"]
  let r2 := if retrieved_contexts.isEmpty then r1
    else tryUpdate (j.faithfulness test_case) r1 fun r v => { r with faithfulness := v }
  let i2 := if retrieved_contexts.isEmpty then i1 else i1 ++ ["faithfulness"]
  let r3 := if retrieved_contexts.isEmpty then r2
    else tryUpdate (j.context_precision test_case) r2
      fun r v => { r with context_precision := v }
  let i3 := if retrieved_contexts.isEmpty then i2 else i2 ++ ["context_precision"]
  let r4 := if retrieved_contexts.isEmpty then r3
    else tryUpdate (j.context_recall test_case) r3 fun r v => { r with context_recall := v }
  let i4 := if retrieved_contexts.isEmpty then i3 else i3 ++ ["context_recall"]
  let r5 := if retrieved_contexts.isEmpty then r4
    else tryUpdate (j.context_relevancy test_case) r4
      fun r v => { r with context_relevancy := v }
  let i5 := if retrieved_contexts.isEmpty then i4 else i4 ++ ["context_relevancy"]
  let r6 := tryUpdate (j.hallucination test_case) r5
    fun r v => { r with hallucination_score := v }
  let i6 := i5 ++ ["hallucination"]
  let r7 := if isTruthy expected_output then
      { r6 with bleu_score := calculate_bleu_score (expected_output.getD "") response }
    else r6
  let r8 := if isTruthy expected_output then
      { r7 with rouge_score := calculate_rouge_score stem (expected_output.getD "") response }
    else r7
  (r8, i6)

theorem tryUpdate_ar (o : Option ℚ) (r : EvalResults) :
    tryUpdate o r (fun r v => { r with answer_relevancy := v })
      = { r with answer_relevancy := o.getD r.answer_relevancy } := by
  cases o <;> rfl

theorem tryUpdate_faith (o : Option ℚ) (r : EvalResults) :
    tryUpdate o r (fun r v => { r with faithfulness := v })
      = { r with faithfulness := o.getD r.faithfulness } := by
  cases o <;> rfl

theorem tryUpdate_cp (o : Option ℚ) (r : EvalResults) :
    tryUpdate o r (fun r v => { r with context_precision := v })
      = { r with context_precision := o.getD r.context_precision } := by
  cases o <;> rfl

theorem tryUpdate_cr (o : Option ℚ) (r : EvalResults) :
    tryUpdate o r (fun r v => { r with context_recall := v })
      = { r with context_recall := o.getD r.context_recall } := by
  cases o <;> rfl

theorem tryUpdate_crel (o : Option ℚ) (r : EvalResults) :
    tryUpdate o r (fun r v => { r with context_relevancy := v })
      = { r with context_relevancy := o.getD r.context_relevancy } := by
  cases o <;> rfl

theorem tryUpdate_hall (o : Option ℚ) (r : EvalResults) :
    tryUpdate o r (fun r v => { r with hallucination_score := v })
      = { r with hallucination_score := o.getD r.hallucination_score } := by
  cases o <;> rfl

/-! ### Shape of the evaluation result -/

set_option maxHeartbeats 1000000 in
theorem evaluate_response_eq (j : Judges) (stem : String → String)
    (query response : String) (retrieved_contexts : List DocDict)
    (expected_output : Option String) :
    evaluate_response j stem query response retrieved_contexts expected_output =
      ({ answer_relevancy :=
            (j.answer_relevancy (mkTestCase query response retrieved_contexts
              expected_output)).getD 0
         faithfulness := if retrieved_contexts.isEmpty then 0
            else (j.faithfulness (mkTestCase query response retrieved_contexts
              expected_output)).getD 0
         context_precision := if retrieved_contexts.isEmpty then 0
            else (j.context_precision (mkTestCase query response retrieved_contexts
              expected_output)).getD 0
         context_recall := if retrieved_contexts.isEmpty then 0
            else (j.context_recall (mkTestCase query response retrieved_contexts
              expected_output)).getD 0
         context_relevancy := if retrieved_contexts.isEmpty then 0
            else (j.context_relevancy (mkTestCase query response retrieved_contexts
              expected_output)).getD 0
         hallucination_score :=
            (j.hallucination (mkTestCase query response retrieved_contexts
              expected_output)).getD 0
         bleu_score := if isTruthy expected_output then
            calculate_bleu_score (expected_output.getD "") response else 0
         rouge_score := if isTruthy expected_output then
            calculate_rouge_score stem (expected_output.getD "") response else 0 },
       "answer_relevancy" ::
         ((if retrieved_contexts.isEmpty then []
           else ["faithfulness", "context_precision", "context_recall",
             "context_relevancy"]) ++ ["hallucination"])) := by
  cases hc : retrieved_contexts.isEmpty <;> cases he : isTruthy expected_output <;>
    simp [evaluate_response, hc, he, tryUpdate_ar, tryUpdate_faith, tryUpdate_cp,
      tryUpdate_cr, tryUpdate_crel, tryUpdate_hall]

/-- C2: for every evaluation input — any context list, any optional
reference, any judge behaviour — `evaluate_response` returns the
fixed-shape eight-key score record, where each key starts at 0.0 and is
overwritten exactly by its own scorer's successful outcome: each field
depends only on that scorer's result (and its own applicability guard), so
one scorer's failure never disturbs the others. -/
theorem eval_results_all_eight_keys (j : Judges) (stem : String → String)
    (query response : String) (retrieved_contexts : List DocDict)
    (expected_output : Option String) :
    (evaluate_response j stem query response retrieved_contexts expected_output).1.answer_relevancy
        = (j.answer_relevancy (mkTestCase query response retrieved_contexts
          expected_output)).getD 0 ∧
    (evaluate_response j stem query response retrieved_contexts expected_output).1.faithfulness
        = (if retrieved_contexts.isEmpty then 0
          else (j.faithfulness (mkTestCase query response retrieved_contexts
            expected_output)).getD 0) ∧
    (evaluate_response j stem query response retrieved_contexts expected_output).1.context_precision
        = (if retrieved_contexts.isEmpty then 0
          else (j.context_precision (mkTestCase query response retrieved_contexts
            expected_output)).getD 0) ∧
    (evaluate_response j stem query response retrieved_contexts expected_output).1.context_recall
        = (if retrieved_contexts.isEmpty then 0
          else (j.context_recall (mkTestCase query response retrieved_contexts
            expected_output)).getD 0) ∧
    (evaluate_response j stem query response retrieved_contexts expected_output).1.context_relevancy
        = (if retrieved_contexts.isEmpty then 0
          else (j.context_relevancy (mkTestCase query response retrieved_contexts
            expected_output)).getD 0) ∧
    (evaluate_response j stem query response retrieved_contexts expected_output).1.hallucination_score
        = (j.hallucination (mkTestCase query response retrieved_contexts
          expected_output)).getD 0 ∧
    (evaluate_response j stem query response retrieved_contexts expected_output).1.bleu_score
        = (if isTruthy expected_output then
          calculate_bleu_score (expected_output.getD "") response else 0) ∧
    (evaluate_response j stem query response retrieved_contexts expected_output).1.rouge_score
        = (if isTruthy expected_output then
          calculate_rouge_score stem (expected_output.getD "") response else 0) := by
  rw [evaluate_response_eq]
  exact ⟨rfl, rfl, rfl, rfl, rfl, rfl, rfl, rfl⟩

/-- C3: with an empty retrieval-context list, the four context-dependent
scorers are not invoked (the measure-call trace contains only
`answer_relevancy` and `hallucination`) and their scores remain 0.0,
while answer relevancy and hallucination are still computed from their
judges. -/
theorem empty_context_skips_context_scorers (j : Judges) (stem : String → String)
    (query response : String) (expected_output : Option String) :
    (evaluate_response j stem query response [] expected_output).1.faithfulness = 0 ∧
    (evaluate_response j stem query response [] expected_output).1.context_precision = 0 ∧
    (evaluate_response j stem query response [] expected_output).1.context_recall = 0 ∧
    (evaluate_response j stem query response [] expected_output).1.context_relevancy = 0 ∧
    (evaluate_response j stem query response [] expected_output).2
        = ["answer_relevancy", "hallucination"] ∧
    (evaluate_response j stem query response [] expected_output).1.answer_relevancy
        = (j.answer_relevancy (mkTestCase query response [] expected_output)).getD 0 ∧
    (evaluate_response j stem query response [] expected_output).1.hallucination_score
        = (j.hallucination (mkTestCase query response [] expected_output)).getD 0 := by
  rw [evaluate_response_eq]
  simp

/-- C7: the lexical scores are produced only when a reference response is
supplied (with no reference both stay 0.0, and an empty-string reference
also leaves them 0.0), and the retained ROUGE value is solely the
ROUGE-L (longest-common-subsequence) F1 measure out of the three computed
variants. -/
theorem lexical_scores_reference_gated (j : Judges) (stem : String → String)
    (query response : String) (retrieved_contexts : List DocDict) :
    (evaluate_response j stem query response retrieved_contexts none).1.bleu_score = 0 ∧
    (evaluate_response j stem query response retrieved_contexts none).1.rouge_score = 0 ∧
    (∀ s : String,
      (evaluate_response j stem query response retrieved_contexts (some s)).1.bleu_score
        = if s = "" then 0 else calculate_bleu_score s response) ∧
    (∀ s : String,
      (evaluate_response j stem query response retrieved_contexts (some s)).1.rouge_score
        = if s = "" then 0 else calculate_rouge_score stem s response) ∧
    (∀ reference candidate : String,
      calculate_rouge_score stem reference candidate
        = (rougeScorerScore stem reference candidate).rougeL.fmeasure) := by
  refine ⟨?_, ?_, ?_, ?_, fun _ _ => rfl⟩
  · rw [evaluate_response_eq]
    simp [isTruthy]
  · rw [evaluate_response_eq]
    simp [isTruthy]
  · intro s
    rw [evaluate_response_eq]
    by_cases hs : s = "" <;> simp [isTruthy, hs]
  · intro s
    rw [evaluate_response_eq]
    by_cases hs : s = "" <;> simp [isTruthy, hs]

/-- C10: an expected/reference response that is present but equal to `""`
behaves exactly like no reference at all: the whole evaluation result
(scores and measure-call trace) coincides with the no-reference one, the
two lexical scores stay 0.0, and the test case's expected output falls
back to the candidate response itself. -/
theorem empty_reference_like_none (j : Judges) (stem : String → String)
    (query response : String) (retrieved_contexts : List DocDict) :
    evaluate_response j stem query response retrieved_contexts (some "")
        = evaluate_response j stem query response retrieved_contexts none ∧
    (evaluate_response j stem query response retrieved_contexts (some "")).1.bleu_score = 0 ∧
    (evaluate_response j stem query response retrieved_contexts (some "")).1.rouge_score = 0 ∧
    mkTestCase query response retrieved_contexts (some "")
        = mkTestCase query response retrieved_contexts none ∧
    (mkTestCase query response retrieved_contexts (some "")).expected_output = response := by
  have htc : mkTestCase query response retrieved_contexts (some "")
      = mkTestCase query response retrieved_contexts none := by
    simp [mkTestCase, pyOrStr]
  refine ⟨?_, ?_, ?_, htc, by simp [mkTestCase, pyOrStr]⟩
  · rw [evaluate_response_eq, evaluate_response_eq, htc]
    simp [isTruthy]
  · rw [evaluate_response_eq]
    simp [isTruthy]
  · rw [evaluate_response_eq]
    simp [isTruthy]

/-! ### Exact-match lexical scores (C8) -/

theorem clippedCount_self (g : List (List String)) : clippedCount g g = g.length := by
  unfold clippedCount
  simp only [min_self]
  rw [← List.sum_toFinset_count_eq_length g]
  rw [Finset.sum]
  simp only [List.toFinset, Multiset.toFinset, Multiset.coe_dedup, Multiset.map_coe,
    Multiset.sum_coe]
  refine congrArg List.sum (List.map_congr_left fun x _ => ?_)
  simp [List.count, beq_eq_decide]

theorem modifiedPrecision_self (l : List String) (n : ℕ)
    (h : (ngramList n l).length ≠ 0) : modifiedPrecision l l n = 1 := by
  unfold modifiedPrecision
  rw [clippedCount_self]
  rw [max_eq_right (Nat.one_le_iff_ne_zero.mpr h)]
  rw [div_self (by exact_mod_cast h)]

theorem smooth0_one : smooth0 1 = 1 := by
  unfold smooth0
  norm_num

theorem bleu_exact :
    calculate_bleu_score "the sky is blue" "the sky is blue" = 1 := by
  have hs : pySplit (lowerStr "the sky is blue") = ["the", "sky", "is", "blue"] := by decide
  unfold calculate_bleu_score
  rw [hs]
  unfold sentenceBleu
  rw [clippedCount_self]
  rw [if_neg (by decide : ¬ (ngramList 1 (["the", "sky", "is", "blue"] : List String)).length = 0)]
  rw [modifiedPrecision_self _ 1 (by decide), modifiedPrecision_self _ 2 (by decide),
    modifiedPrecision_self _ 3 (by decide), modifiedPrecision_self _ 4 (by decide)]
  rw [smooth0_one]
  rw [show (["the", "sky", "is", "blue"] : List String).length = 4 from rfl]
  have hbp : brevityPenalty 4 4 = 1 := by
    unfold brevityPenalty
    rw [if_neg (by norm_num), if_neg (by norm_num)]
    norm_num [Real.exp_zero]
  rw [hbp]
  simp [Real.log_one, Real.exp_zero]

theorem lcsLen_self (l : List String) : lcsLen l l = l.length := by
  induction l with
  | nil => simp [lcsLen]
  | cons a l ih => simp [lcsLen, ih, Nat.add_comm]

theorem scoreLcs_self (t : List String) (h : t ≠ []) : scoreLcs t t = ⟨1, 1, 1⟩ := by
  have hlen : (t.length : ℚ) ≠ 0 := by
    have h0 : t.length ≠ 0 := fun hh => h (List.length_eq_zero.mp hh)
    exact_mod_cast h0
  simp only [scoreLcs]
  rw [if_neg (by simp [h])]
  rw [lcsLen_self]
  rw [div_self hlen]
  norm_num [fmeasureOf]

theorem rouge_exact (stem : String → String) :
    calculate_rouge_score stem "the sky is blue" "the sky is blue" = 1 := by
  have hsplit : pySplit (rougeClean "the sky is blue") = ["the", "sky", "is", "blue"] := by
    decide
  have hmem : "the" ∈ rougeTokenize stem "the sky is blue" := by
    unfold rougeTokenize
    rw [hsplit]
    rw [List.mem_filter]
    constructor
    · rw [List.mem_map]
      exact ⟨"the", by simp, if_neg (by decide)⟩
    · decide
  have hne : rougeTokenize stem "the sky is blue" ≠ [] := List.ne_nil_of_mem hmem
  unfold calculate_rouge_score rougeScorerScore
  simp only
  rw [scoreLcs_self _ hne]

/-- A judge set on which every `measure` call raises. -/
def constJudges : Judges :=
  ⟨fun _ => none, fun _ => none, fun _ => none, fun _ => none, fun _ => none, fun _ => none⟩

/-- C8: evaluating a candidate identical to the reference, with an empty
context, yields `bleu_score = 1.0` and `rouge_score = 1.0` (for any judge
behaviour and any stemmer), and the lexical scorers are deterministic:
equal inputs always give equal lexical scores. -/
theorem exact_match_lexical_scores :
    (∀ (j : Judges) (stem : String → String) (query : String),
      (evaluate_response j stem query "the sky is blue" []
        (some "the sky is blue")).1.bleu_score = 1 ∧
      (evaluate_response j stem query "the sky is blue" []
        (some "the sky is blue")).1.rouge_score = 1) ∧
    calculate_bleu_score "the sky is blue" "the sky is blue" = 1 ∧
    (∀ stem : String → String,
      calculate_rouge_score stem "the sky is blue" "the sky is blue" = 1) ∧
    (∀ r₁ c₁ r₂ c₂ : String, r₁ = r₂ → c₁ = c₂ →
      calculate_bleu_score r₁ c₁ = calculate_bleu_score r₂ c₂ ∧
      ∀ stem : String → String,
        calculate_rouge_score stem r₁ c₁ = calculate_rouge_score stem r₂ c₂) := by
  refine ⟨?_, bleu_exact, rouge_exact, ?_⟩
  · intro j stem query
    rw [evaluate_response_eq]
    constructor
    · simp [show isTruthy (some "the sky is blue") = true from by decide, bleu_exact]
    · simp [show isTruthy (some "the sky is blue") = true from by decide, rouge_exact]
  · rintro r₁ c₁ r₂ c₂ rfl rfl
    exact ⟨rfl, fun _ => rfl⟩

theorem exact_match_lexical_scores_witness :
    (evaluate_response constJudges (fun s => s) "q" "the sky is blue" []
      (some "the sky is blue")).1.rouge_score = 1 ∧
    calculate_bleu_score "a b" "a b" = calculate_bleu_score "a b" "a b" :=
  ⟨(exact_match_lexical_scores.1 constJudges (fun s => s) "q").2,
   (exact_match_lexical_scores.2.2.2 "a b" "a b" "a b" "a b" rfl rfl).1⟩
